import Mathlib

/-!
# Verification of the JVM-backend incremental-compilation core

Shallow embedding of `pants/backend/java/dependency_inference/types.py` and
`pants/backend/java/util_rules.py`, together with a spec-modelled view of the
incremental-cache key layer (whose implementation is external to these
sources), and proofs of the specified properties.
-/

namespace PantsJvm

/-! ## Content store model

The spec treats the Content Store as external: every artifact is identified
by a digest, two digests are equal iff the underlying content is equal, and
digests of file sets and merged digest trees exist.  We model digests as the
free algebra over those operations, so digest equality is exactly structural
equality of the construction — faithful to "two digests equal iff same
content". -/

/-- A file entering a `CreateDigest` request: path, content bytes (modelled as
a string), and the executable bit — the fields of `FileContent` used by the
sources. -/
structure FileContent where
  path : String
  content : String
  is_executable : Bool
deriving DecidableEq, Repr

/-- Free content-store digest algebra: a digest of raw byte content, a digest
of a created file set (`CreateDigest`), and a merge of digest trees
(`MergeDigests`).  Constructor injectivity models "two digests equal iff the
same content". -/
inductive Digest where
  | ofContent (bytes : String)
  | create (files : List FileContent)
  | merge (ds : List Digest)
deriving Repr

mutual

/-- Boolean equality on digests (structural; needed because automatic
derivation does not handle the nested `List Digest` occurrence). -/
def Digest.beq : Digest → Digest → Bool
  | .ofContent a, .ofContent b => a == b
  | .create a, .create b => a == b
  | .merge a, .merge b => Digest.beqList a b
  | _, _ => false

/-- Pointwise boolean equality on lists of digests. -/
def Digest.beqList : List Digest → List Digest → Bool
  | [], [] => true
  | x :: xs, y :: ys => Digest.beq x y && Digest.beqList xs ys
  | _, _ => false

end

mutual

/-- Soundness and completeness of `Digest.beq` with respect to equality. -/
theorem Digest.beq_iff : ∀ (a b : Digest), Digest.beq a b = true ↔ a = b
  | .ofContent _, .ofContent _ => by simp [Digest.beq]
  | .ofContent _, .create _ => by simp [Digest.beq]
  | .ofContent _, .merge _ => by simp [Digest.beq]
  | .create _, .ofContent _ => by simp [Digest.beq]
  | .create _, .create _ => by simp [Digest.beq]
  | .create _, .merge _ => by simp [Digest.beq]
  | .merge _, .ofContent _ => by simp [Digest.beq]
  | .merge _, .create _ => by simp [Digest.beq]
  | .merge x, .merge y => by simp [Digest.beq, Digest.beqList_iff x y]

/-- Soundness and completeness of `Digest.beqList`. -/
theorem Digest.beqList_iff : ∀ (a b : List Digest), Digest.beqList a b = true ↔ a = b
  | [], [] => by simp [Digest.beqList]
  | [], _ :: _ => by simp [Digest.beqList]
  | _ :: _, [] => by simp [Digest.beqList]
  | x :: xs, y :: ys => by
      simp [Digest.beqList, Digest.beq_iff x y, Digest.beqList_iff xs ys]

end

instance : DecidableEq Digest := fun a b =>
  decidable_of_iff (Digest.beq a b = true) (Digest.beq_iff a b)

/-! ## `dependency_inference/types.py`

The decoded data model: `JavaImport` and `JavaSourceDependencyAnalysis`
exactly as the dataclasses define them. -/

/-- One import statement, as in the `JavaImport` dataclass. -/
structure JavaImport where
  name : String
  is_static : Bool
  is_asterisk : Bool
deriving DecidableEq, Repr

/-- The per-source-file dependency analysis, as in the
`JavaSourceDependencyAnalysis` dataclass. -/
structure JavaSourceDependencyAnalysis where
  declared_package : Option String
  imports : List JavaImport
  top_level_types : List String
  consumed_unqualified_types : List String
deriving DecidableEq, Repr

/-- Wire form of one import object (the `dict[str, Any]` argument of
`JavaImport.from_json_dict`): each field is `some v` when the key is present
with value `v` and `none` when the key is absent.  Values of present keys are
modelled at their wire types; the Python code never inspects a value's type,
so only key presence matters to the decoder. -/
structure ImportWire where
  name : Option String
  isStatic : Option Bool
  isAsterisk : Option Bool
deriving DecidableEq, Repr

/-- Wire form of the per-file analysis object (the `dict[str, Any]` argument
of `JavaSourceDependencyAnalysis.from_json_dict`).  `declaredPackage` is
doubly optional: the outer layer is key presence, the inner layer is a JSON
null versus a string value. -/
structure AnalysisWire where
  declaredPackage : Option (Option String)
  imports : Option (List ImportWire)
  topLevelTypes : Option (List String)
  consumedUnqualifiedTypes : Option (List String)
deriving DecidableEq, Repr

/-- Failure of decoding a dependency-analysis wire record: the spec's
`MalformedAnalysis` error.  The Python code raises `KeyError(key)` from
`dict.__getitem__` on the missing required key. -/
inductive MalformedAnalysis where
  | missingKey (key : String)
deriving DecidableEq, Repr

/-- `JavaImport.from_json_dict`: reads the keys `name`, `isAsterisk`,
`isStatic` (in the evaluation order of the Python call), failing on the
first absent one. -/
def JavaImport.from_json_dict (imp : ImportWire) : Except MalformedAnalysis JavaImport :=
  match imp.name with
  | none => .error (.missingKey "name")
  | some n =>
    match imp.isAsterisk with
    | none => .error (.missingKey "isAsterisk")
    | some ast =>
      match imp.isStatic with
      | none => .error (.missingKey "isStatic")
      | some st => .ok { name := n, is_static := st, is_asterisk := ast }

/-- `JavaImport.to_debug_json_dict` emits snake_case keys with the same
values; the debug object always has all three keys, so it is a plain
structure. -/
structure ImportDebug where
  name : String
  is_static : Bool
  is_asterisk : Bool
deriving DecidableEq, Repr

/-- The debug view of one import: `JavaImport.to_debug_json_dict`. -/
def JavaImport.to_debug_json_dict (i : JavaImport) : ImportDebug :=
  { name := i.name, is_static := i.is_static, is_asterisk := i.is_asterisk }

/-- The debug view of the per-file analysis:
`JavaSourceDependencyAnalysis.to_debug_json_dict`.  The `declared_package`
key is always emitted, with a null value when the package is absent. -/
structure AnalysisDebug where
  declared_package : Option String
  imports : List ImportDebug
  top_level_types : List String
  consumed_unqualified_types : List String
deriving DecidableEq, Repr

/-- Decoding of the `imports` list: the Python
`tuple(JavaImport.from_json_dict(imp) for imp in analysis["imports"])`
evaluates each element in order and the whole expression fails at the first
element whose decoding raises. -/
def decodeImports : List ImportWire → Except MalformedAnalysis (List JavaImport)
  | [] => .ok []
  | i :: rest =>
    match JavaImport.from_json_dict i with
    | .error e => .error e
    | .ok v =>
      match decodeImports rest with
      | .error e => .error e
      | .ok vs => .ok (v :: vs)

/-- `JavaSourceDependencyAnalysis.from_json_dict`: `declaredPackage` is read
with `dict.get` (absent key and null value both give `None`); `imports`,
`topLevelTypes` and `consumedUnqualifiedTypes` are read with indexing and
fail when absent, in the evaluation order of the Python constructor call. -/
def JavaSourceDependencyAnalysis.from_json_dict (analysis : AnalysisWire) :
    Except MalformedAnalysis JavaSourceDependencyAnalysis :=
  let declared_package := analysis.declaredPackage.join
  match analysis.imports with
  | none => .error (.missingKey "imports")
  | some imps =>
    match decodeImports imps with
    | .error e => .error e
    | .ok decoded =>
      match analysis.topLevelTypes with
      | none => .error (.missingKey "topLevelTypes")
      | some tlts =>
        match analysis.consumedUnqualifiedTypes with
        | none => .error (.missingKey "consumedUnqualifiedTypes")
        | some cuts =>
          .ok { declared_package := declared_package
                imports := decoded
                top_level_types := tlts
                consumed_unqualified_types := cuts }

/-- `JavaSourceDependencyAnalysis.to_debug_json_dict`. -/
def JavaSourceDependencyAnalysis.to_debug_json_dict (a : JavaSourceDependencyAnalysis) :
    AnalysisDebug :=
  { declared_package := a.declared_package
    imports := a.imports.map JavaImport.to_debug_json_dict
    top_level_types := a.top_level_types
    consumed_unqualified_types := a.consumed_unqualified_types }

/-- Well-formedness of a wire import object per the claim: the required keys
`name`, `isStatic`, `isAsterisk` are all present. -/
def ImportWire.wellFormed (i : ImportWire) : Bool :=
  i.name.isSome && i.isStatic.isSome && i.isAsterisk.isSome

/-- Well-formedness of a wire analysis record per the claim: the required
keys `imports`, `topLevelTypes`, `consumedUnqualifiedTypes` are present and
every import object is well-formed; `declaredPackage` is optional. -/
def AnalysisWire.wellFormed (r : AnalysisWire) : Bool :=
  r.imports.isSome && (r.imports.getD []).all ImportWire.wellFormed &&
    r.topLevelTypes.isSome && r.consumedUnqualifiedTypes.isSome

/-- The claim's key-casing transform, read from the debug view back to the
wire: rename `name`/`is_static`/`is_asterisk` to `name`/`isStatic`/
`isAsterisk` with identical values.  A debug record d is "structurally
equivalent to wire record r up to key casing" exactly when `d.toWire = r`. -/
def ImportDebug.toWire (d : ImportDebug) : ImportWire :=
  { name := some d.name, isStatic := some d.is_static, isAsterisk := some d.is_asterisk }

/-- The claim's key-casing transform on whole records, read from the debug
view back to the wire: snake_case keys renamed to their camelCase wire
names, values unchanged (list order included). -/
def AnalysisDebug.toWire (d : AnalysisDebug) : AnalysisWire :=
  { declaredPackage := some d.declared_package
    imports := some (d.imports.map ImportDebug.toWire)
    topLevelTypes := some d.top_level_types
    consumedUnqualifiedTypes := some d.consumed_unqualified_types }

/-- The claim's enumeration of required keys for one import object, as a
predicate: some required key is absent. -/
def ImportWire.missingRequiredKey (i : ImportWire) : Bool :=
  i.name.isNone || i.isStatic.isNone || i.isAsterisk.isNone

/-- The claim's enumeration of required keys for the analysis record, as a
predicate: `imports`, `topLevelTypes` or `consumedUnqualifiedTypes` is
absent, or some import object lacks a required key.  `declaredPackage` does
not appear here. -/
def AnalysisWire.missingRequiredKey (r : AnalysisWire) : Bool :=
  r.imports.isNone || (r.imports.getD []).any ImportWire.missingRequiredKey ||
    r.topLevelTypes.isNone || r.consumedUnqualifiedTypes.isNone

/-- Modelled from the spec: the Dependency Analyzer runs over many source
files; the per-file driver is not part of these sources (only the record
type and its decoder are).  Per the spec, each file's wire record is decoded
independently — a failure is "fatal to that file's analysis, does not abort
sibling files". -/
def analyzeAll (records : List AnalysisWire) :
    List (Except MalformedAnalysis JavaSourceDependencyAnalysis) :=
  records.map JavaSourceDependencyAnalysis.from_json_dict

/-! ## `backend/java/util_rules.py`

The `JdkSetup` value and the `setup_jdk` rule.  External collaborators (the
Classpath Resolver behind the `Get(ResolvedClasspathEntry, ...)`, and the
Process Executor behind the `Get(FallibleProcessResult, ...)`) are passed in
as oracle functions; the rule body is translated line by line.  Alongside
its result the embedding returns the trace of external requests the rule
issued, so that theorems can speak about which lockfile entry was requested
and with which cache scope the locate process ran. -/

/-- A dependency coordinate `(group, artifact, version)`. -/
structure Coordinate where
  group : String
  artifact : String
  version : String
deriving DecidableEq, Repr

/-- Splitting a character list at every occurrence of a separator character
(structurally recursive, so it evaluates definitionally). -/
def splitFields (sep : Char) : List Char → List (List Char)
  | [] => [[]]
  | c :: rest =>
    if c = sep then [] :: splitFields sep rest
    else
      match splitFields sep rest with
      | [] => [[c]]
      | f :: fs => (c :: f) :: fs

/-- Modelled from the spec: `Coordinate.from_coord_str` lives in the external
Coordinate Resolver (`pants.jvm.resolve.coursier_fetch`), outside these
sources; §6 of the spec gives the coordinate string form
`group:artifact:version`. -/
def Coordinate.from_coord_str (s : String) : Coordinate :=
  match (splitFields ':' s.data).map (fun cs => String.mk cs) with
  | [g, a, v] => { group := g, artifact := a, version := v }
  | _ => { group := "", artifact := "", version := "" }

/-- `Coordinates()` is a collection of coordinates; the rule only ever builds
empty ones. -/
abbrev Coordinates := List Coordinate

/-- A pinned file digest: fingerprint and byte length. -/
structure FileDigest where
  fingerprint : String
  serialized_bytes_length : Nat
deriving DecidableEq, Repr

/-- One pinned lockfile entry, as in `CoursierLockfileEntry`. -/
structure CoursierLockfileEntry where
  coord : Coordinate
  file_name : String
  direct_dependencies : Coordinates
  dependencies : Coordinates
  file_digest : FileDigest
deriving DecidableEq, Repr

/-- The realized form of a lockfile entry, as in `ResolvedClasspathEntry`:
the fetched file's name and its digest. -/
structure ResolvedClasspathEntry where
  file_name : String
  digest : Digest
deriving DecidableEq, Repr

/-- The discovered bash binary; the rule uses only its path. -/
structure BashBinary where
  path : String
deriving DecidableEq, Repr

/-- The downloaded coursier tool; the rule uses only its executable path. -/
structure DownloadedExternalTool where
  exe : String
deriving DecidableEq, Repr

/-- The `Coursier` subsystem value: the downloaded tool and the digest of
its files. -/
structure Coursier where
  coursier : DownloadedExternalTool
  digest : Digest
deriving DecidableEq, Repr

/-- The `--jdk` option of the `JavacSubsystem` ("system" or a managed
version string). -/
structure JavacOptionValues where
  jdk : String
deriving DecidableEq, Repr

/-- The `JavacSubsystem` as the rule consumes it: its option values. -/
structure JavacSubsystem where
  options : JavacOptionValues
deriving DecidableEq, Repr

/-- Process cache scopes, as in `ProcessCacheScope`: `successful` is the
default scope, eligible for cross-invocation reuse of a successful result;
the two `perRestart` scopes are always fresh per process (pantsd) restart. -/
inductive ProcessCacheScope where
  | always
  | successful
  | perRestartAlways
  | perRestartSuccessful
deriving DecidableEq, Repr

/-- A process-execution request, with the fields `setup_jdk` populates. -/
structure Process where
  argv : List String
  input_digest : Digest
  description : String
  cache_scope : ProcessCacheScope
deriving DecidableEq, Repr

/-- A fallible process result: exit code, stdout and stderr (byte strings,
modelled after UTF-8 decoding). -/
structure FallibleProcessResult where
  exit_code : Int
  stdout : String
  stderr : String
deriving DecidableEq, Repr

/-- The `JdkSetup` dataclass: the sandbox digest and the name of the nailgun
(persistent-server) jar. -/
structure JdkSetup where
  digest : Digest
  nailgun_jar : String
deriving DecidableEq, Repr

/-- The class variable `JdkSetup.jdk_preparation_script`. -/
def JdkSetup.jdk_preparation_script : String := "__jdk.sh"

/-- The class variable `JdkSetup.java_home`. -/
def JdkSetup.java_home : String := "__java_home"

/-- Python `sep.join(items)`: the items interleaved with the separator. -/
def joinStrings (sep : String) : List String → String
  | [] => ""
  | [x] => x
  | x :: y :: rest => x ++ sep ++ joinStrings sep (y :: rest)

/-- `JdkSetup.args`: the invocation argv built from a bash binary and
classpath entry names. -/
def JdkSetup.args (setup : JdkSetup) (bash : BashBinary) (classpath_entries : List String) :
    List String :=
  [ bash.path,
    JdkSetup.jdk_preparation_script,
    JdkSetup.java_home ++ "/bin/java",
    "-cp",
    joinStrings ":" (setup.nailgun_jar :: classpath_entries) ]

/-- The external collaborators `setup_jdk` awaits via `Get`: the Classpath
Resolver and the Process Executor. -/
structure Env where
  resolveClasspathEntry : CoursierLockfileEntry → ResolvedClasspathEntry
  runProcess : Process → FallibleProcessResult

/-- The fixed lockfile entry for the nailgun persistent server that
`setup_jdk` requests, with its pinned digest. -/
def nailgunLockfileEntry : CoursierLockfileEntry :=
  { coord := Coordinate.from_coord_str "com.martiansoftware:nailgun-server:0.9.1"
    file_name := "nailgun-server-0.9.1.jar"
    direct_dependencies := []
    dependencies := []
    file_digest :=
      { fingerprint := "4518faa6bf4bd26fccdc4d85e1625dc679381a08d56872d8ad12151dda9cef25"
        serialized_bytes_length := 32927 } }

/-- The `coursier_jdk_option` local of `setup_jdk`. -/
def coursier_jdk_option (javac : JavacSubsystem) : String :=
  if javac.options.jdk = "system" then "--system-jvm" else "--jvm=" ++ javac.options.jdk

/-- The `java_home_command` local of `setup_jdk`. -/
def java_home_command (coursier : Coursier) (javac : JavacSubsystem) : String :=
  coursier.coursier.exe ++ " java-home " ++ coursier_jdk_option javac

/-- The JDK-locate verification process that `setup_jdk` issues. -/
def java_version_process (coursier : Coursier) (javac : JavacSubsystem) (bash : BashBinary) :
    Process :=
  { argv := [bash.path, "-c", "$(" ++ java_home_command coursier javac ++ ")/bin/java -version"]
    input_digest := coursier.digest
    description := "Ensure download of JDK " ++ coursier_jdk_option javac ++ "."
    cache_scope := .perRestartSuccessful }

/-- Whitespace characters stripped by Python `str.strip()`. -/
def isPythonSpace (c : Char) : Bool :=
  c = ' ' || c = '\t' || c = '\n' || c = '\r' || c = Char.ofNat 11 || c = Char.ofNat 12

/-- Python `str.strip()`: drop leading and trailing whitespace (structurally
recursive model, so it evaluates definitionally). -/
def pythonStrip (s : String) : String :=
  String.mk (((s.data.dropWhile isPythonSpace).reverse.dropWhile isPythonSpace).reverse)

/-- The content of the synthesized `__jdk.sh` sandbox-preparation script
(the dedented f-string of `setup_jdk`): a comment line recording the
coursier option and the verified `java -version` output, `set -eu`, the
symlink creation whose target is the command substitution of the locate
command, and the final `exec` of the wrapped command. -/
def jdk_preparation_script_content (coursier_jdk_option java_version java_home_command : String) :
    String :=
  "# pants javac script using Coursier " ++ coursier_jdk_option ++
    ". `java -version`: " ++ java_version ++
    "\"\nset -eu\n\n/bin/ln -s \"$(" ++ java_home_command ++
    ")\" \"" ++ JdkSetup.java_home ++ "\"\nexec \"$@\"\n"

/-- The trace of external requests one run of `setup_jdk` issued. -/
structure SetupTrace where
  resolveRequests : List CoursierLockfileEntry
  processRequests : List Process

/-- The `setup_jdk` rule: resolve the pinned nailgun entry, run the JDK
locate/verify process, fail (the `ValueError`, the spec's `JdkNotFound`)
when it exits non-zero, otherwise synthesize the executable `__jdk.sh`
script and return the `JdkSetup` whose digest merges the coursier digest,
the script digest and the nailgun digest.  Returned alongside the trace of
external requests issued. -/
def setup_jdk (env : Env) (coursier : Coursier) (javac : JavacSubsystem) (bash : BashBinary) :
    Except String JdkSetup × SetupTrace :=
  let nailgun := env.resolveClasspathEntry nailgunLockfileEntry
  let proc := java_version_process coursier javac bash
  let java_version_result := env.runProcess proc
  let trace : SetupTrace :=
    { resolveRequests := [nailgunLockfileEntry], processRequests := [proc] }
  if java_version_result.exit_code ≠ 0 then
    (.error ("Failed to locate Java for JDK `" ++ javac.options.jdk ++ "`:\n" ++
        java_version_result.stderr),
      trace)
  else
    let java_version := pythonStrip java_version_result.stdout
    let script := jdk_preparation_script_content (coursier_jdk_option javac) java_version
      (java_home_command coursier javac)
    let script_file : FileContent :=
      { path := JdkSetup.jdk_preparation_script, content := script, is_executable := true }
    let jdk_preparation_script_digest := Digest.create [script_file]
    (.ok { digest := Digest.merge [coursier.digest, jdk_preparation_script_digest, nailgun.digest]
           nailgun_jar := nailgun.file_name },
      trace)

/-! ## Incremental cache layer (spec-modelled)

The cache layer itself is not among these sources — only its integration
test is — so the following definitions are modelled from the spec: the
`CompileUnit` key (§3), lookup with structural key equality (§4.5), and the
derivation of a downstream unit's classpath digests from the binary content
of each dependency's output. -/

/-- Modelled from the spec: the `platform` component of a `CompileUnit`
(§3): source and target versions. -/
structure Platform where
  source_version : String
  target_version : String
deriving DecidableEq, Repr

/-- Modelled from the spec: the `CompileUnit` cache-key domain (§3):
`(source_digest, classpath_digests, compiler_options, platform)`, with
structural equality. -/
structure CompileUnit where
  source_digest : Digest
  classpath_digests : List Digest
  compiler_options : List String
  platform : Platform
deriving DecidableEq, Repr

/-- Modelled from the spec: the four diagnostic buckets of a cache entry
(§3). -/
structure DiagnosticCounts where
  error : Nat
  warning : Nat
  information : Nat
  hint : Nat
deriving DecidableEq, Repr

/-- Modelled from the spec: a `CacheEntry` (§3): the output digest and the
diagnostic counts of a fully completed successful compile. -/
structure CacheEntry where
  output_digest : Digest
  diagnostic_counts : DiagnosticCounts
deriving DecidableEq, Repr

/-- Modelled from the spec: `lookup(key) -> optional CacheEntry` (§4.5) over
a stored set of entries, with key equality structural over `CompileUnit`. -/
def cacheLookup (entries : List (CompileUnit × CacheEntry)) (key : CompileUnit) :
    Option CacheEntry :=
  (entries.find? (fun e => decide (e.1 = key))).map (fun e => e.2)

/-- Modelled from the spec: a dependency's classpath digest is derived from
the binary content of the dependency's emitted output (its bytecode), not
from its declared API surface (§4.5); digests are content-addressed, so it
is the digest of those bytes. -/
def classpathDigestOfOutput (bytecode : String) : Digest :=
  Digest.ofContent bytecode

/-- Modelled from the spec: the cache key of a downstream unit B as a
function of the binary output of its dependency A — A's output digest
appears among B's classpath digests (at an arbitrary position, with the
digests of B's other classpath entries around it), while B's own sources,
options and platform are unchanged by A. -/
def downstreamKey (b_source : Digest) (cp_before cp_after : List Digest)
    (a_bytecode : String) (opts : List String) (platform : Platform) : CompileUnit :=
  { source_digest := b_source
    classpath_digests := cp_before ++ [classpathDigestOfOutput a_bytecode] ++ cp_after
    compiler_options := opts
    platform := platform }

/-! ## Concrete sample values (used by witnesses and counterexamples) -/

/-- A well-formed wire record with the optional `declaredPackage` present. -/
def sampleWire : AnalysisWire :=
  { declaredPackage := some (some "org.pantsbuild.example")
    imports := some [{ name := some "java.util.List", isStatic := some false,
                       isAsterisk := some false },
                     { name := some "java.util.Collections", isStatic := some true,
                       isAsterisk := some true }]
    topLevelTypes := some ["Example", "ExampleHelper"]
    consumedUnqualifiedTypes := some ["Foo"] }

/-- A wire record whose required key `imports` is absent. -/
def sampleWireMissing : AnalysisWire :=
  { declaredPackage := some (some "org.pantsbuild.example")
    imports := none
    topLevelTypes := some ["Example"]
    consumedUnqualifiedTypes := some [] }

/-- A well-formed wire record whose optional `declaredPackage` key is absent. -/
def sampleWireNoPackage : AnalysisWire :=
  { declaredPackage := none
    imports := some [{ name := some "java.util.Map", isStatic := some true,
                       isAsterisk := some false }]
    topLevelTypes := some ["Example"]
    consumedUnqualifiedTypes := some ["Bar"] }

/-- A sample environment whose locate process succeeds. -/
def sampleEnv : Env :=
  { resolveClasspathEntry := fun _ =>
      { file_name := "nailgun-server-0.9.1.jar", digest := Digest.ofContent "nailgun-bytes" }
    runProcess := fun _ => { exit_code := 0, stdout := "openjdk version 11", stderr := "" } }

/-- A sample environment whose locate process fails with stderr output. -/
def sampleEnvFail : Env :=
  { resolveClasspathEntry := fun _ =>
      { file_name := "nailgun-server-0.9.1.jar", digest := Digest.ofContent "nailgun-bytes" }
    runProcess := fun _ =>
      { exit_code := 1, stdout := "", stderr := "no JVM could be located" } }

/-- A sample coursier subsystem value. -/
def sampleCoursier : Coursier :=
  { coursier := { exe := "coursier_exe" }, digest := Digest.ofContent "coursier-bytes" }

/-- A sample javac subsystem selecting the system JDK. -/
def sampleJavac : JavacSubsystem := { options := { jdk := "system" } }

/-- A sample bash binary. -/
def sampleBash : BashBinary := { path := "/bin/bash" }

/-- The digest of the preparation script synthesized for the sample inputs. -/
def sampleScriptDigest : Digest :=
  Digest.create [{ path := JdkSetup.jdk_preparation_script
                   content := jdk_preparation_script_content (coursier_jdk_option sampleJavac)
                     "openjdk version 11" (java_home_command sampleCoursier sampleJavac)
                   is_executable := true }]

/-- The `JdkSetup` value produced for the sample inputs. -/
def sampleSetup : JdkSetup :=
  { digest := Digest.merge [sampleCoursier.digest, sampleScriptDigest,
      Digest.ofContent "nailgun-bytes"]
    nailgun_jar := "nailgun-server-0.9.1.jar" }

/-! ## Helper lemmas for the decoder -/

/-- A well-formed wire import decodes, and its debug view maps back onto it
under the key-casing transform. -/
theorem from_json_dict_ok_of_wellFormed :
    ∀ (i : ImportWire), i.wellFormed = true →
      ∃ v, JavaImport.from_json_dict i = Except.ok v ∧ v.to_debug_json_dict.toWire = i
  | ⟨some n, some st, some ast⟩, _ => ⟨⟨n, st, ast⟩, rfl, rfl⟩
  | ⟨none, _, _⟩, h => by simp [ImportWire.wellFormed] at h
  | ⟨some _, none, _⟩, h => by simp [ImportWire.wellFormed] at h
  | ⟨some _, some _, none⟩, h => by simp [ImportWire.wellFormed] at h

/-- A list of well-formed wire import objects decodes elementwise, and the
decoded list maps back onto the wire list under the key-casing transform. -/
theorem decodeImports_ok_of_all_wellFormed :
    ∀ (l : List ImportWire), l.all ImportWire.wellFormed = true →
      ∃ vs, decodeImports l = Except.ok vs ∧
        vs.map (fun v => v.to_debug_json_dict.toWire) = l
  | [], _ => ⟨[], rfl, rfl⟩
  | i :: rest, h => by
      rw [List.all_cons, Bool.and_eq_true] at h
      obtain ⟨v, hv, hvw⟩ := from_json_dict_ok_of_wellFormed i h.1
      obtain ⟨vs, hvs, hmap⟩ := decodeImports_ok_of_all_wellFormed rest h.2
      exact ⟨v :: vs, by simp [decodeImports, hv, hvs], by simp [hmap, hvw]⟩

/-- Decoding one wire import fails exactly when one of its required keys is
absent. -/
theorem from_json_dict_import_error_iff (i : ImportWire) :
    (∃ e, JavaImport.from_json_dict i = Except.error e) ↔ i.missingRequiredKey = true := by
  obtain ⟨n, st, ast⟩ := i
  cases n <;> cases st <;> cases ast <;>
    simp [JavaImport.from_json_dict, ImportWire.missingRequiredKey]

/-- Decoding a list of wire imports fails exactly when some element lacks a
required key. -/
theorem decodeImports_error_iff :
    ∀ (l : List ImportWire), (∃ e, decodeImports l = Except.error e) ↔
      l.any ImportWire.missingRequiredKey = true
  | [] => by simp [decodeImports]
  | i :: rest => by
      rw [List.any_cons]
      cases hi : JavaImport.from_json_dict i with
      | error e =>
          have hk : i.missingRequiredKey = true :=
            (from_json_dict_import_error_iff i).mp ⟨e, hi⟩
          simp [decodeImports, hi, hk]
      | ok v =>
          have hk : i.missingRequiredKey = false := by
            by_contra hkc
            rw [Bool.not_eq_false] at hkc
            obtain ⟨e, he⟩ := (from_json_dict_import_error_iff i).mpr hkc
            rw [hi] at he
            simp at he
          cases hrest : decodeImports rest with
          | error e2 =>
              have hr : rest.any ImportWire.missingRequiredKey = true :=
                (decodeImports_error_iff rest).mp ⟨e2, hrest⟩
              simp [decodeImports, hi, hrest, hk, hr]
          | ok vs =>
              have hr : rest.any ImportWire.missingRequiredKey = false := by
                by_contra hrc
                rw [Bool.not_eq_false] at hrc
                obtain ⟨e2, he2⟩ := (decodeImports_error_iff rest).mpr hrc
                rw [hrest] at he2
                simp at he2
              simp [decodeImports, hi, hrest, hk, hr]

/-! ## C2: decode/encode round trip -/

/-- C2: for every well-formed wire record, decoding with `from_json_dict` and
then encoding with `to_debug_json_dict` yields a structurally equivalent
record — the same values in the same list order, with only the key casing
transformed from camelCase to snake_case.  Structural equivalence up to
casing is witnessed by `AnalysisDebug.toWire`, the inverse key-casing
transform: it maps the debug view exactly back onto the wire record.  When
the optional `declaredPackage` key is present (with a string or a null
value) the round trip reproduces the record identically; when the key is
absent, the debug view carries the equally absent declared package as an
explicit null `declared_package` value, the only well-formed record on which
the two representations of an absent package coincide. -/
theorem from_json_dict_to_debug_roundtrip (r : AnalysisWire) (h : r.wellFormed = true) :
    ∃ a, JavaSourceDependencyAnalysis.from_json_dict r = Except.ok a
      ∧ a.to_debug_json_dict.toWire =
          { r with declaredPackage := some r.declaredPackage.join }
      ∧ (∀ p, r.declaredPackage = some p → a.to_debug_json_dict.toWire = r) := by
  obtain ⟨dp, imps, tlts, cuts⟩ := r
  cases imps with
  | none => simp [AnalysisWire.wellFormed] at h
  | some l =>
    cases tlts with
    | none => simp [AnalysisWire.wellFormed] at h
    | some ts =>
      cases cuts with
      | none => simp [AnalysisWire.wellFormed] at h
      | some cs =>
        have hall : l.all ImportWire.wellFormed = true := by
          simpa [AnalysisWire.wellFormed] using h
        obtain ⟨vs, hvs, hmap⟩ := decodeImports_ok_of_all_wellFormed l hall
        refine ⟨⟨dp.join, vs, ts, cs⟩, ?_, ?_, ?_⟩
        · simp [JavaSourceDependencyAnalysis.from_json_dict, hvs]
        · simp [JavaSourceDependencyAnalysis.to_debug_json_dict, AnalysisDebug.toWire,
            List.map_map, Function.comp_def, hmap]
        · intro p hp
          cases hp
          simp [JavaSourceDependencyAnalysis.to_debug_json_dict, AnalysisDebug.toWire,
            List.map_map, Function.comp_def, hmap]

/-- Witness for C2 at a concrete well-formed record. -/
theorem from_json_dict_to_debug_roundtrip_witness :
    sampleWire.wellFormed = true ∧
      ∃ a, JavaSourceDependencyAnalysis.from_json_dict sampleWire = Except.ok a
        ∧ a.to_debug_json_dict.toWire =
            { sampleWire with declaredPackage := some sampleWire.declaredPackage.join }
        ∧ (∀ p, sampleWire.declaredPackage = some p → a.to_debug_json_dict.toWire = sampleWire) :=
  ⟨by decide, from_json_dict_to_debug_roundtrip sampleWire (by decide)⟩

/-! ## C3: decoding failure exactly on missing required keys -/

/-- C3: decoding a wire record fails with a `MalformedAnalysis` error exactly
when a required key is absent — `imports`, `topLevelTypes`,
`consumedUnqualifiedTypes`, or `name`/`isStatic`/`isAsterisk` inside an
imported-object entry (`AnalysisWire.missingRequiredKey` is that enumeration);
a record lacking only the optional `declaredPackage` key decodes
successfully, to an absent declared package; and decoding is per-file — the
outcome for each record in a batch is a function of that record alone, so
one record's failure does not abort sibling records. -/
theorem from_json_dict_error_iff_missing_key (r : AnalysisWire) :
    ((∃ e, JavaSourceDependencyAnalysis.from_json_dict r = Except.error e) ↔
        r.missingRequiredKey = true)
      ∧ (r.declaredPackage = none → r.missingRequiredKey = false →
          ∃ a, JavaSourceDependencyAnalysis.from_json_dict r = Except.ok a ∧
            a.declared_package = none)
      ∧ (∀ (records : List AnalysisWire) (i : Nat),
          (analyzeAll records)[i]? =
            (records[i]?).map JavaSourceDependencyAnalysis.from_json_dict) := by
  refine ⟨?_, ?_, ?_⟩
  · obtain ⟨dp, imps, tlts, cuts⟩ := r
    cases imps with
    | none =>
        simp [JavaSourceDependencyAnalysis.from_json_dict, AnalysisWire.missingRequiredKey]
    | some l =>
      cases hd : decodeImports l with
      | error e =>
          have hl : l.any ImportWire.missingRequiredKey = true :=
            (decodeImports_error_iff l).mp ⟨e, hd⟩
          simp [JavaSourceDependencyAnalysis.from_json_dict, hd,
            AnalysisWire.missingRequiredKey, hl]
      | ok vs =>
          have hl : l.any ImportWire.missingRequiredKey = false := by
            by_contra hlc
            rw [Bool.not_eq_false] at hlc
            obtain ⟨e, he⟩ := (decodeImports_error_iff l).mpr hlc
            rw [hd] at he
            simp at he
          cases tlts <;> cases cuts <;>
            simp [JavaSourceDependencyAnalysis.from_json_dict, hd,
              AnalysisWire.missingRequiredKey, hl]
  · intro hdp hmiss
    obtain ⟨dp, imps, tlts, cuts⟩ := r
    cases hdp
    cases imps with
    | none => simp [AnalysisWire.missingRequiredKey] at hmiss
    | some l =>
      cases tlts with
      | none => simp [AnalysisWire.missingRequiredKey] at hmiss
      | some ts =>
        cases cuts with
        | none => simp [AnalysisWire.missingRequiredKey] at hmiss
        | some cs =>
          have hl : l.any ImportWire.missingRequiredKey = false := by
            simpa [AnalysisWire.missingRequiredKey] using hmiss
          cases hd : decodeImports l with
          | error e =>
              have := (decodeImports_error_iff l).mp ⟨e, hd⟩
              rw [hl] at this
              simp at this
          | ok vs =>
              exact ⟨⟨none, vs, ts, cs⟩,
                by simp [JavaSourceDependencyAnalysis.from_json_dict, hd], rfl⟩
  · intro records i
    simp [analyzeAll, List.getElem?_map]

/-- Witness for C3: a record lacking `imports` fails to decode, and a
well-formed record lacking only `declaredPackage` decodes to an absent
package. -/
theorem from_json_dict_error_iff_missing_key_witness :
    (∃ e, JavaSourceDependencyAnalysis.from_json_dict sampleWireMissing = Except.error e)
      ∧ (∃ a, JavaSourceDependencyAnalysis.from_json_dict sampleWireNoPackage = Except.ok a ∧
          a.declared_package = none) :=
  ⟨(from_json_dict_error_iff_missing_key sampleWireMissing).1.mpr (by decide),
   (from_json_dict_error_iff_missing_key sampleWireNoPackage).2.1 (by decide) (by decide)⟩

/-! ## C1: binary-incompatible dependency changes invalidate dependents -/

/-- C1 (spec-modelled cache layer): for a downstream unit B whose classpath
digests are derived from the binary content of its dependency A, any change
to A that alters A's emitted bytecode changes A's output digest
(content-addressing is injective), which changes B's `CompileUnit` cache key
(key equality is structural), so a lookup of B's new key against a cache
holding B's entry under the old key misses — B is recompiled even when A's
source-level contract is unchanged. -/
theorem binary_change_invalidates_dependents
    (b_source : Digest) (cp_before cp_after : List Digest) (opts : List String)
    (platform : Platform) (a_bytecode a_bytecode' : String) (entry : CacheEntry)
    (hchange : a_bytecode ≠ a_bytecode') :
    classpathDigestOfOutput a_bytecode ≠ classpathDigestOfOutput a_bytecode'
      ∧ downstreamKey b_source cp_before cp_after a_bytecode opts platform ≠
          downstreamKey b_source cp_before cp_after a_bytecode' opts platform
      ∧ cacheLookup
          [(downstreamKey b_source cp_before cp_after a_bytecode opts platform, entry)]
          (downstreamKey b_source cp_before cp_after a_bytecode' opts platform) = none := by
  have hdig : classpathDigestOfOutput a_bytecode ≠ classpathDigestOfOutput a_bytecode' := by
    simp [classpathDigestOfOutput, hchange]
  have hkey : downstreamKey b_source cp_before cp_after a_bytecode opts platform ≠
      downstreamKey b_source cp_before cp_after a_bytecode' opts platform := by
    intro hk
    apply hdig
    have hcp := congrArg CompileUnit.classpath_digests hk
    simp only [downstreamKey] at hcp
    rw [List.append_assoc, List.append_assoc] at hcp
    have h2 := List.append_cancel_left hcp
    simpa using h2
  refine ⟨hdig, hkey, ?_⟩
  simp [cacheLookup, List.find?, hkey]

/-- Witness for C1 at concrete inputs: changing the dependency's bytecode
while everything else is fixed misses the cache. -/
theorem binary_change_invalidates_dependents_witness :
    ("bytecode-v1" : String) ≠ "bytecode-v2"
      ∧ (classpathDigestOfOutput "bytecode-v1" ≠ classpathDigestOfOutput "bytecode-v2"
          ∧ downstreamKey (Digest.ofContent "B.scala") [] [] "bytecode-v1" ["-g"]
              { source_version := "8", target_version := "8" } ≠
              downstreamKey (Digest.ofContent "B.scala") [] [] "bytecode-v2" ["-g"]
                { source_version := "8", target_version := "8" }
          ∧ cacheLookup
              [(downstreamKey (Digest.ofContent "B.scala") [] [] "bytecode-v1" ["-g"]
                  { source_version := "8", target_version := "8" },
                { output_digest := Digest.ofContent "B.class",
                  diagnostic_counts := { error := 0, warning := 0, information := 0, hint := 0 } })]
              (downstreamKey (Digest.ofContent "B.scala") [] [] "bytecode-v2" ["-g"]
                { source_version := "8", target_version := "8" }) = none) :=
  ⟨by decide,
   binary_change_invalidates_dependents (Digest.ofContent "B.scala") [] [] ["-g"]
     { source_version := "8", target_version := "8" } "bytecode-v1" "bytecode-v2"
     { output_digest := Digest.ofContent "B.class",
       diagnostic_counts := { error := 0, warning := 0, information := 0, hint := 0 } }
     (by decide)⟩

/-! ## C4: locate failure surfaces `JdkNotFound` with stderr -/

/-- C4: when the external JDK-locate command exits non-zero, `setup_jdk`
fails with the `JdkNotFound` error (the raised `ValueError`), whose message
is a fixed prefix followed by the locate command's stderr verbatim, and no
`JdkSetup` value is produced. -/
theorem setup_jdk_locate_failure (env : Env) (coursier : Coursier)
    (javac : JavacSubsystem) (bash : BashBinary)
    (h : (env.runProcess (java_version_process coursier javac bash)).exit_code ≠ 0) :
    (setup_jdk env coursier javac bash).1 =
        Except.error ("Failed to locate Java for JDK `" ++ javac.options.jdk ++ "`:\n" ++
          (env.runProcess (java_version_process coursier javac bash)).stderr)
      ∧ (setup_jdk env coursier javac bash).1.isOk = false := by
  constructor
  · simp [setup_jdk, h]
  · simp [setup_jdk, h, Except.isOk, Except.toBool]

/-- Witness for C4 at a concrete failing locate process. -/
theorem setup_jdk_locate_failure_witness :
    (sampleEnvFail.runProcess
        (java_version_process sampleCoursier sampleJavac sampleBash)).exit_code ≠ 0
      ∧ ((setup_jdk sampleEnvFail sampleCoursier sampleJavac sampleBash).1 =
          Except.error ("Failed to locate Java for JDK `" ++ sampleJavac.options.jdk ++ "`:\n" ++
            (sampleEnvFail.runProcess
              (java_version_process sampleCoursier sampleJavac sampleBash)).stderr)
        ∧ (setup_jdk sampleEnvFail sampleCoursier sampleJavac sampleBash).1.isOk = false) :=
  ⟨by decide,
   setup_jdk_locate_failure sampleEnvFail sampleCoursier sampleJavac sampleBash (by decide)⟩

/-! ## C5: the invocation argv -/

/-- Hoisting a left factor over the separator-joining fold. -/
theorem foldl_sep_append (sep a : String) (l : List String) (x : String) :
    a ++ l.foldl (fun acc e => acc ++ sep ++ e) x =
      l.foldl (fun acc e => acc ++ sep ++ e) (a ++ x) := by
  induction l generalizing x with
  | nil => rfl
  | cons y t ih =>
      simp only [List.foldl_cons]
      rw [ih (x ++ sep ++ y)]
      simp [String.append_assoc]

/-- Python `sep.join` on a nonempty list is the fold appending
separator-prefixed items to the head. -/
theorem joinStrings_eq_foldl (sep : String) :
    ∀ (x : String) (l : List String),
      joinStrings sep (x :: l) = l.foldl (fun acc e => acc ++ sep ++ e) x
  | _, [] => rfl
  | x, y :: t => by
      show x ++ sep ++ joinStrings sep (y :: t) = (y :: t).foldl _ x
      rw [joinStrings_eq_foldl sep y t]
      simp only [List.foldl_cons]
      exact foldl_sep_append sep (x ++ sep) t y

/-- C5: for every bash binary and classpath entry list, `JdkSetup.args`
yields exactly the argv `(bash.path, "__jdk.sh", "__java_home/bin/java",
"-cp", s)` where `s` is the persistent-server jar name followed by the
classpath entries in order, each preceded by a `:` separator. -/
theorem JdkSetup_args_spec (setup : JdkSetup) (bash : BashBinary) (cp : List String) :
    setup.args bash cp =
      [ bash.path, "__jdk.sh", "__java_home/bin/java", "-cp",
        cp.foldl (fun acc entry => acc ++ ":" ++ entry) setup.nailgun_jar ] := by
  simp [JdkSetup.args, JdkSetup.jdk_preparation_script, JdkSetup.java_home,
    joinStrings_eq_foldl]

/-! ## C6: what the sandbox digest merges -/

/-- C6 (amended): on a successful locate, the digest of the returned
`JdkSetup` is the merge of THREE digests — the coursier tool digest, the
sandbox-preparation-script digest, and the persistent-server (nailgun)
artifact digest — not of the latter two alone. -/
theorem setup_jdk_digest_merge (env : Env) (coursier : Coursier)
    (javac : JavacSubsystem) (bash : BashBinary)
    (h : (env.runProcess (java_version_process coursier javac bash)).exit_code = 0) :
    (setup_jdk env coursier javac bash).1 =
      Except.ok
        { digest := Digest.merge
            [ coursier.digest,
              Digest.create [{ path := JdkSetup.jdk_preparation_script
                               content := jdk_preparation_script_content
                                 (coursier_jdk_option javac)
                                 (pythonStrip (env.runProcess
                                   (java_version_process coursier javac bash)).stdout)
                                 (java_home_command coursier javac)
                               is_executable := true }],
              (env.resolveClasspathEntry nailgunLockfileEntry).digest ]
          nailgun_jar := (env.resolveClasspathEntry nailgunLockfileEntry).file_name } := by
  simp [setup_jdk, h]

/-- Witness for the amended C6 at concrete inputs. -/
theorem setup_jdk_digest_merge_witness :
    (sampleEnv.runProcess
        (java_version_process sampleCoursier sampleJavac sampleBash)).exit_code = 0
      ∧ (setup_jdk sampleEnv sampleCoursier sampleJavac sampleBash).1 =
          Except.ok
            { digest := Digest.merge
                [ sampleCoursier.digest,
                  Digest.create [{ path := JdkSetup.jdk_preparation_script
                                   content := jdk_preparation_script_content
                                     (coursier_jdk_option sampleJavac)
                                     (pythonStrip (sampleEnv.runProcess
                                       (java_version_process sampleCoursier sampleJavac
                                         sampleBash)).stdout)
                                     (java_home_command sampleCoursier sampleJavac)
                                   is_executable := true }],
                  (sampleEnv.resolveClasspathEntry nailgunLockfileEntry).digest ]
              nailgun_jar :=
                (sampleEnv.resolveClasspathEntry nailgunLockfileEntry).file_name } :=
  ⟨by decide,
   setup_jdk_digest_merge sampleEnv sampleCoursier sampleJavac sampleBash (by decide)⟩

/-- Counterexample to C6 as stated: at concrete inputs the produced sandbox
digest is the three-way merge including the coursier digest, which is a
different digest tree than the claimed merge of the script digest and the
persistent-server digest alone. -/
theorem setup_jdk_digest_not_two_way_merge :
    (setup_jdk sampleEnv sampleCoursier sampleJavac sampleBash).1 = Except.ok sampleSetup
      ∧ sampleSetup.digest = Digest.merge [sampleCoursier.digest, sampleScriptDigest,
          Digest.ofContent "nailgun-bytes"]
      ∧ Digest.merge [sampleCoursier.digest, sampleScriptDigest,
            Digest.ofContent "nailgun-bytes"] ≠
          Digest.merge [sampleScriptDigest, Digest.ofContent "nailgun-bytes"] :=
  ⟨rfl, rfl, by simp⟩

/-! ## C7: cache scope of the locate process -/

/-- C7: every process request `setup_jdk` issues — there is exactly one, the
JDK-locate verification — carries the `perRestartSuccessful` cache scope
(always fresh per process restart, a successful lookup reused within one
build invocation) and never the default `successful` scope that is eligible
for cross-invocation reuse. -/
theorem setup_jdk_locate_cache_scope (env : Env) (coursier : Coursier)
    (javac : JavacSubsystem) (bash : BashBinary) :
    ∀ p ∈ (setup_jdk env coursier javac bash).2.processRequests,
      p.cache_scope = ProcessCacheScope.perRestartSuccessful ∧
        p.cache_scope ≠ ProcessCacheScope.successful := by
  intro p hp
  have ht : (setup_jdk env coursier javac bash).2.processRequests =
      [java_version_process coursier javac bash] := by
    by_cases hc : (env.runProcess (java_version_process coursier javac bash)).exit_code = 0 <;>
      simp [setup_jdk, hc]
  rw [ht] at hp
  simp only [List.mem_singleton] at hp
  subst hp
  exact ⟨rfl, by simp [java_version_process]⟩

/-- Witness for C7 at concrete inputs. -/
theorem setup_jdk_locate_cache_scope_witness :
    (java_version_process sampleCoursier sampleJavac sampleBash).cache_scope =
        ProcessCacheScope.perRestartSuccessful ∧
      (java_version_process sampleCoursier sampleJavac sampleBash).cache_scope ≠
        ProcessCacheScope.successful :=
  setup_jdk_locate_cache_scope sampleEnv sampleCoursier sampleJavac sampleBash
    (java_version_process sampleCoursier sampleJavac sampleBash) (by decide)

/-! ## C8: the sandbox-preparation script -/

/-- Splitting the script text between the `set -eu` prologue and the
symlink line re-associates to the fused literal of the script template. -/
theorem set_eu_ln_glue (x : String) :
    "\"\nset -eu\n\n" ++ ("/bin/ln -s \"$(" ++ x) =
      "\"\nset -eu\n\n/bin/ln -s \"$(" ++ x := by
  rw [← String.append_assoc]
  rfl

/-- C8: on a successful locate, `setup_jdk` synthesizes the preparation
script as the executable file `__jdk.sh`; the script's text ends with the
symlink-creation line — whose link target is the command substitution
`$(...)` of the locate command, so the machine-local JDK home is re-resolved
inside every process invocation — linking it to the fixed in-sandbox path
`__java_home`, immediately followed by `exec "$@"` running the wrapped
command; and the sandbox digest is computed once from that file's content,
merged with the coursier and persistent-server digests. -/
theorem setup_jdk_script_contract (env : Env) (coursier : Coursier)
    (javac : JavacSubsystem) (bash : BashBinary)
    (h : (env.runProcess (java_version_process coursier javac bash)).exit_code = 0) :
    ∃ setup script_file,
      (setup_jdk env coursier javac bash).1 = Except.ok setup
        ∧ script_file.path = "__jdk.sh"
        ∧ script_file.is_executable = true
        ∧ JdkSetup.java_home = "__java_home"
        ∧ (∃ p, script_file.content =
            p ++ ("/bin/ln -s \"$(" ++ java_home_command coursier javac ++ ")\" \"" ++
              JdkSetup.java_home ++ "\"\n" ++ "exec \"$@\"\n"))
        ∧ setup.digest = Digest.merge [coursier.digest, Digest.create [script_file],
            (env.resolveClasspathEntry nailgunLockfileEntry).digest] := by
  refine ⟨{ digest := Digest.merge
              [ coursier.digest,
                Digest.create [{ path := JdkSetup.jdk_preparation_script
                                 content := jdk_preparation_script_content
                                   (coursier_jdk_option javac)
                                   (pythonStrip (env.runProcess
                                     (java_version_process coursier javac bash)).stdout)
                                   (java_home_command coursier javac)
                                 is_executable := true }],
                (env.resolveClasspathEntry nailgunLockfileEntry).digest ]
            nailgun_jar := (env.resolveClasspathEntry nailgunLockfileEntry).file_name },
          { path := JdkSetup.jdk_preparation_script
            content := jdk_preparation_script_content (coursier_jdk_option javac)
              (pythonStrip (env.runProcess
                (java_version_process coursier javac bash)).stdout)
              (java_home_command coursier javac)
            is_executable := true },
          ?_, rfl, rfl, rfl, ?_, rfl⟩
  · simp [setup_jdk, h]
  · refine ⟨"# pants javac script using Coursier " ++ coursier_jdk_option javac ++
      ". `java -version`: " ++ (pythonStrip (env.runProcess
        (java_version_process coursier javac bash)).stdout) ++ "\"\nset -eu\n\n", ?_⟩
    simp [jdk_preparation_script_content, JdkSetup.java_home, String.append_assoc,
      set_eu_ln_glue]

/-- Witness for C8 at concrete inputs. -/
theorem setup_jdk_script_contract_witness :
    (sampleEnv.runProcess
        (java_version_process sampleCoursier sampleJavac sampleBash)).exit_code = 0
      ∧ ∃ setup script_file,
          (setup_jdk sampleEnv sampleCoursier sampleJavac sampleBash).1 = Except.ok setup
            ∧ script_file.path = "__jdk.sh"
            ∧ script_file.is_executable = true
            ∧ JdkSetup.java_home = "__java_home"
            ∧ (∃ p, script_file.content =
                p ++ ("/bin/ln -s \"$(" ++ java_home_command sampleCoursier sampleJavac ++
                  ")\" \"" ++ JdkSetup.java_home ++ "\"\n" ++ "exec \"$@\"\n"))
            ∧ setup.digest = Digest.merge [sampleCoursier.digest,
                Digest.create [script_file],
                (sampleEnv.resolveClasspathEntry nailgunLockfileEntry).digest] :=
  ⟨by decide,
   setup_jdk_script_contract sampleEnv sampleCoursier sampleJavac sampleBash (by decide)⟩

/-! ## C10: the fixed persistent-server lockfile entry -/

/-- C10: for every configuration, `setup_jdk` requests the persistent-server
artifact as exactly one fixed lockfile entry — coordinate
`com.martiansoftware:nailgun-server:0.9.1`, file name
`nailgun-server-0.9.1.jar`, empty dependency sets, and the pinned file
digest — independent of every input (so the coordinate is not a
caller-supplied parameter), and on success the returned `nailgun_jar` equals
the resolved entry's file name. -/
theorem setup_jdk_fixed_nailgun_request (env : Env) (coursier : Coursier)
    (javac : JavacSubsystem) (bash : BashBinary) :
    (setup_jdk env coursier javac bash).2.resolveRequests = [nailgunLockfileEntry]
      ∧ nailgunLockfileEntry.coord =
          { group := "com.martiansoftware", artifact := "nailgun-server", version := "0.9.1" }
      ∧ nailgunLockfileEntry.file_name = "nailgun-server-0.9.1.jar"
      ∧ nailgunLockfileEntry.direct_dependencies = []
      ∧ nailgunLockfileEntry.dependencies = []
      ∧ nailgunLockfileEntry.file_digest =
          { fingerprint := "4518faa6bf4bd26fccdc4d85e1625dc679381a08d56872d8ad12151dda9cef25"
            serialized_bytes_length := 32927 }
      ∧ ∀ setup, (setup_jdk env coursier javac bash).1 = Except.ok setup →
          setup.nailgun_jar = (env.resolveClasspathEntry nailgunLockfileEntry).file_name := by
  refine ⟨?_, by decide, rfl, rfl, rfl, rfl, ?_⟩
  · by_cases hc : (env.runProcess (java_version_process coursier javac bash)).exit_code = 0 <;>
      simp [setup_jdk, hc]
  · intro setup hs
    by_cases hc : (env.runProcess (java_version_process coursier javac bash)).exit_code = 0
    · simp only [setup_jdk, hc] at hs
      simp at hs
      rw [← hs]
    · simp [setup_jdk, hc] at hs

/-- Witness for C10 at concrete inputs whose setup succeeds. -/
theorem setup_jdk_fixed_nailgun_request_witness :
    sampleSetup.nailgun_jar =
      (sampleEnv.resolveClasspathEntry nailgunLockfileEntry).file_name :=
  (setup_jdk_fixed_nailgun_request sampleEnv sampleCoursier sampleJavac
      sampleBash).2.2.2.2.2.2 sampleSetup rfl

end PantsJvm
